import Mathlib

/-!
Shallow embedding of `saspy/sasiocom.py` (COM access method for SAS):
session configuration override policy, submission framing, the chunked
stream drain loop, schema-driven value conversion, the two dataframe
retrieval paths, file upload/download policy, and session startup.

Program text is modelled as `List Char`; Python `str.format` template
substitution is carried out directly by concatenation.
-/

/-- Program text (Python `str`) as a list of characters. -/
abbrev Str := List Char

/-- Coerce a Lean string literal into the `Str` model. -/
def str (s : String) : Str := s.data

/-- The single-quote character (written via its code point). -/
def squo : Char := Char.ofNat 39

/-- The double-quote character (written via its code point). -/
def dquo : Char := Char.ofNat 34

/-- The backslash character (written via its code point). -/
def bslash : Char := Char.ofNat 92

/-- Python `str.lower()` restricted to ASCII case mapping. -/
def pyLower (s : String) : String := String.mk (s.data.map Char.toLower)

/-- The syntax-reset sentinel from `SASSessionCOM.submit`
(sasiocom.py:382): the literal `;*';*";*/;quit;run;`. -/
def RESET : Str := str ";*" ++ [squo] ++ str ";*" ++ [dquo] ++ str ";*/;quit;run;"

/-- The ODS output-capture preamble built in `SASSessionCOM._asubmit`
(sasiocom.py:353-360), with the three template holes (`sascfg.output`,
`_gethtmlfn()`, `HTML_Style`) substituted. -/
def odsOpen (output htmlfn style : Str) : Str :=
  str "\n                ods listing close;\n                ods " ++ output ++
  str " (id=saspy_internal) options(bitmap_mode=" ++ [squo] ++ str "inline" ++ [squo] ++
  str ")\n                    file=" ++ [dquo] ++ htmlfn ++ [dquo] ++
  str "\n                    device=svg\n                    style=" ++ style ++
  str ";\n                ods graphics on / outputfmt=png;\n            "

/-- The ODS output-capture postamble built in `SASSessionCOM._asubmit`
(sasiocom.py:362-365). -/
def odsClose (output : Str) : Str :=
  str "\n                ods " ++ output ++
  str " (id=saspy_internal) close;\n                ods listing;\n            "

/-- `SASSessionCOM._asubmit` (sasiocom.py:346-372): the full program text
handed to `LanguageService.Submit`. When `results.lower() == 'html'` the
code is wrapped between the ODS preamble and postamble; otherwise both
wrappers are the empty string. -/
def asubmitFull (output htmlfn style : Str) (results : String) (code : Str) : Str :=
  if pyLower results = "html" then
    odsOpen output htmlfn style ++ code ++ odsClose output
  else
    code

/-- `SASSessionCOM.submit` (sasiocom.py:389): the unit of program text
passed to `_asubmit` is `RESET + macro_declare + code + RESET`; `_asubmit`
then wraps that whole unit. `letDecls` stands for the resolved
`macro_declare` string. -/
def submitUnit (output htmlfn style : Str) (results : String) (letDecls code : Str) : Str :=
  asubmitFull output htmlfn style results (RESET ++ letDecls ++ code ++ RESET)

/-- The unit the spec sentence describes, word for word: sentinel, then the
macro preamble, then the (possibly wrapped) code, then a second sentinel —
the capture wrapping applied to the code alone. Stated for comparison with
`submitUnit`; the two differ in the rich-output mode. -/
def claimedUnitC1 (output htmlfn style : Str) (results : String) (letDecls code : Str) : Str :=
  RESET ++ letDecls ++ asubmitFull output htmlfn style results code ++ RESET

/-- The bounded-buffer drain loop shared by `_getlog` (sasiocom.py:237-241),
`_getlst` (223-227) and `_getfile` (262-266): read a chunk; keep the result;
while the last chunk is non-empty, read and append another. The channel is
modelled as the list of chunks successive reads return; once the list is
exhausted every further read returns the empty chunk. -/
def drain : List Str → Str
  | [] => []
  | c :: rest => if c = [] then c else c ++ drain rest

/-- Modelled from the spec (the remote LanguageService itself is outside
this repository): the engine's parser has an error state; "submitting
syntactically incomplete input leaves the parser in a state that rejects
all further input until reset". `errorState` is that flag, `history` the
program units the engine has accepted. -/
structure LangService where
  errorState : Bool
  history : List Str
deriving DecidableEq

/-- Modelled from the spec: `LanguageService.Submit`. In the error state
every submission is rejected (`false`); otherwise the unit is accepted and
invalid input puts the parser into the error state. `valid` says whether
the submitted text is syntactically well formed. -/
def lsSubmit (valid : Bool) (code : Str) (s : LangService) : LangService × Bool :=
  if s.errorState then (s, false)
  else ({ errorState := !valid, history := s.history ++ [code] }, true)

/-- `SASSessionCOM._reset` (sasiocom.py:284-292): `LanguageService.Reset()`
returns the parser to its initial, non-error state. -/
def lsReset (s : LangService) : LangService := { s with errorState := false }

/-- The engine-facing effect of `SASSessionCOM.submit` (sasiocom.py:374-412)
for a call whose macro preamble resolved to `letDecls`: submit the framed
unit via `_asubmit`, then — after log and listing retrieval, which do not
touch parser state — unconditionally call `_reset` (sasiocom.py:410).
Returns the engine state and whether the engine accepted the unit. -/
def submitCOM (valid : Bool) (output htmlfn style : Str) (results : String)
    (letDecls code : Str) (s : LangService) : LangService × Bool :=
  let u := submitUnit output htmlfn style results letDecls code
  let step := lsSubmit valid u s
  (lsReset step.1, step.2)

/-- Python exceptions that the submission path can raise. -/
inductive PyErr
  | nameError (n : String)
  | keyboardInterrupt
deriving DecidableEq

/-- The names bound in the local scope of `SASSessionCOM.submit` when the
loop body at sasiocom.py:386 executes: the parameters `code`, `results`,
`prompt`, the locals `RESET` and `macro_declare`, and the loop targets
`key` and `value` (plus `self`). `val` is not among them. -/
def submitLocalNames : List String :=
  ["self", "code", "results", "prompt", "RESET", "macro_declare", "key", "value"]

/-- Python name resolution inside `submit`: an identifier not bound in the
local (or enclosing/global) scope raises `NameError`. -/
def evalLocal (n : String) : Except PyErr String :=
  if n ∈ submitLocalNames then Except.ok n else Except.error (PyErr.nameError n)

/-- One iteration of the loop at sasiocom.py:385-386 must evaluate the
argument expressions `key` and `val` of `self._prompt(key, val)` before
the call can happen. -/
def loopIterArgs : Except PyErr (String × String) := do
  let k ← evalLocal "key"
  let v ← evalLocal "val"
  Except.ok (k, v)

/-- The `%let` line `'%let {} = {};\n'.format(key, value)` that the loop at
sasiocom.py:385-386 is meant to append for one resolved prompt. -/
def letDecl (key value : String) : Str :=
  str "%let " ++ key.data ++ str " = " ++ value.data ++ str ";\n"

/-- The macro-declaration loop of `SASSessionCOM.submit`
(sasiocom.py:384-386) over the entries of `prompt`. Each iteration first
resolves the argument names of `self._prompt(key, val)`; only if both
resolve can the prompt collaborator run (modelled by `answers`, the value
the collaborator would return for each key; `none` = cancelled prompt,
which `_prompt` turns into `KeyboardInterrupt`, sasiocom.py:336-337). -/
def buildLetDecls (answers : String → Option String) :
    List (String × Bool) → Except PyErr Str
  | [] => Except.ok []
  | (key, _) :: rest =>
    match loopIterArgs with
    | Except.error e => Except.error e
    | Except.ok _ =>
      match answers key with
      | none => Except.error PyErr.keyboardInterrupt
      | some v =>
        match buildLetDecls answers rest with
        | Except.error e => Except.error e
        | Except.ok ds => Except.ok (letDecl key v ++ ds)

/-- `SASSessionCOM.submit` including the prompt loop: resolve the macro
preamble (which may raise), then perform the engine interaction. Nothing
is submitted when the preamble raises. -/
def submitWithPrompt (answers : String → Option String)
    (entries : List (String × Bool)) (valid : Bool)
    (output htmlfn style : Str) (results : String) (code : Str)
    (s : LangService) : Except PyErr (LangService × Bool) :=
  match buildLetDecls answers entries with
  | Except.error e => Except.error e
  | Except.ok decls => Except.ok (submitCOM valid output htmlfn style results decls code s)

/-- State of a `SASConfigCOM` object: its dynamically-set attributes and
the warnings printed to stderr so far. -/
structure ConfigState where
  fields : List (String × String)
  warnings : List String
deriving DecidableEq

/-- Python `setattr`: replace the binding for `k` if present, else add it. -/
def setAttr (k v : String) : List (String × String) → List (String × String)
  | [] => [(k, v)]
  | (k₀, v₀) :: rest => if k₀ = k then (k, v) :: rest else (k₀, v₀) :: setAttr k v rest

/-- Python `getattr`: the first binding for `k`. -/
def getAttr (k : String) : List (String × String) → Option String
  | [] => none
  | (k₀, v₀) :: rest => if k₀ = k then some v₀ else getAttr k rest

/-- The warning `SASConfigCOM._try_override` prints (sasiocom.py:81):
`Param '{attr}' was ignored due to configuration restriction`. -/
def overrideWarning (attr : String) : String :=
  String.mk (str "Param " ++ [squo] ++ attr.data ++ [squo] ++
    str " was ignored due to configuration restriction")

/-- `SASConfigCOM._try_override` (sasiocom.py:71-82): if `self._lock is
False` set the attribute, otherwise print the warning and leave the
attribute alone. -/
def tryOverride (lock : Bool) (s : ConfigState) (attr value : String) : ConfigState :=
  if lock = false then
    { s with fields := setAttr attr value s.fields }
  else
    { s with warnings := s.warnings ++ [overrideWarning attr] }

/-- `SASConfigCOM.NO_OVERRIDE` (sasiocom.py:40). -/
def NO_OVERRIDE : List String := ["kernel", "sb"]

/-- The constructor loop of `SASConfigCOM.__init__` (sasiocom.py:68-69):
every keyword argument whose name is not in `NO_OVERRIDE` goes through
`_try_override`. -/
def applyOverrides (lock : Bool) (s : ConfigState)
    (kwargs : List (String × String)) : ConfigState :=
  (kwargs.filter (fun kv => kv.1 ∉ NO_OVERRIDE)).foldl
    (fun st kv => tryOverride lock st kv.1 kv.2) s

/-- A value as it crosses the COM boundary or lands in a dataframe cell:
a number (SAS numerics modelled as exact integers), a character value, or
a calendar value (represented by its signed second count relative to a
fixed calendar zero). -/
inductive PyVal
  | num (n : Int)
  | text (s : String)
  | dt (secs : Int)
deriving DecidableEq

/-- The conversion kind `SASSessionCOM._schema` attaches to a column
(sasiocom.py:310-316). -/
inductive Conv
  | dateDays
  | datetimeSecs
  | identity
deriving DecidableEq

/-- The classification in `SASSessionCOM._schema` (sasiocom.py:310-316):
format name in the date-format set, else in the datetime-format set, else
neither. The two sets live on the collaborator (`self._sb.sas_date_fmts`
and `self._sb.sas_datetime_fmts`) and are taken as parameters. -/
def schemaConv (dateFmts dtFmts : List String) (fmt : String) : Conv :=
  if fmt ∈ dateFmts then Conv.dateDays
  else if fmt ∈ dtFmts then Conv.datetimeSecs
  else Conv.identity

/-- The `CONVERT` lambdas of `SASSessionCOM._schema` (sasiocom.py:311-316):
`SAS_EPOCH + timedelta(days=x)`, `SAS_EPOCH + timedelta(seconds=x)`, or the
identity. `epoch` is the second count of `SAS_EPOCH`; one day is 86400
seconds. Applying a calendar conversion to a non-numeric cell is a Python
`TypeError`, modelled as `none`. -/
def applyConvCell (epoch : Int) : Conv → PyVal → Option PyVal
  | Conv.dateDays, PyVal.num n => some (PyVal.dt (epoch + n * 86400))
  | Conv.datetimeSecs, PyVal.num n => some (PyVal.dt (epoch + n))
  | Conv.identity, v => some v
  | _, _ => none

/-- Column metadata as returned per row of the schema query
(sasiocom.py:309): name, format name, format length, format decimals. -/
structure ColSpec where
  name : String
  formatName : String
  formatLength : Nat
  formatDecimal : Nat
deriving DecidableEq

/-- An abstract SAS table: its columns and its rows of raw cell values. -/
structure STable where
  cols : List ColSpec
  rows : List (List PyVal)
deriving DecidableEq

/-- The cursor path, `SASSessionCOM.read_sasdata` (sasiocom.py:438-490):
header is the field names; every cell of every row goes through its
column's resolved `CONVERT`. -/
def read_sasdata (dateFmts dtFmts : List String) (epoch : Int) (t : STable) :
    List String × List (List (Option PyVal)) :=
  (t.cols.map ColSpec.name,
   t.rows.map (fun row =>
     (t.cols.zip row).map (fun cv =>
       applyConvCell epoch (schemaConv dateFmts dtFmts cv.1.formatName) cv.2)))

/-- The `datecols` list built by `SASSessionCOM.sasdata2dataframeCSV`
(sasiocom.py:648-660): the names of columns whose format is in the date
set or in the datetime set, in column order. -/
def csvDateCols (dateFmts dtFmts : List String) (cols : List ColSpec) : List String :=
  cols.filterMap (fun c =>
    if c.formatName ∈ dateFmts then some c.name
    else if c.formatName ∈ dtFmts then some c.name
    else none)

/-- A cell of the intermediate CSV file: an ISO-8601 date rendering, an
ISO-8601 datetime rendering, or a plain rendering of the raw value. -/
inductive CsvCell
  | isoDate (secs : Int)
  | isoDatetime (secs : Int)
  | plain (v : PyVal)
deriving DecidableEq

/-- Modelled from the spec (SAS `proc export` is outside this repository):
a numeric cell displayed under the forced `E8601DA`/`E8601DT` format
renders as the ISO string of the epoch-relative calendar value it denotes
(the rendering is faithful, carrying exactly that value); a cell under any
other format renders as its plain value. Rendering a non-numeric cell
under a calendar format fails. -/
def sasRenderCell (epoch : Int) : Conv → PyVal → Option CsvCell
  | Conv.dateDays, PyVal.num n => some (CsvCell.isoDate (epoch + n * 86400))
  | Conv.datetimeSecs, PyVal.num n => some (CsvCell.isoDatetime (epoch + n))
  | Conv.identity, v => some (CsvCell.plain v)
  | _, _ => none

/-- Modelled from the spec (`pandas.read_csv` is outside this repository):
a column listed in `parse_dates` has its ISO renderings parsed back to the
calendar values they denote; a column not listed keeps its plain values.
The two mixed cases (a plain cell in a parsed column, an ISO cell in an
unparsed column) are outside the fidelity envelope and modelled as a
failed parse; neither arises on the CSV path. -/
def pandasParseCell : Bool → CsvCell → Option PyVal
  | true, CsvCell.isoDate s => some (PyVal.dt s)
  | true, CsvCell.isoDatetime s => some (PyVal.dt s)
  | false, CsvCell.plain v => some v
  | _, _ => none

/-- The CSV path, `SASSessionCOM.sasdata2dataframeCSV` (sasiocom.py:618-694):
date/datetime columns are forced to the fixed ISO formats and recorded in
`datecols`; the table is exported to CSV remotely, retrieved, and parsed
locally with `parse_dates=datecols`. Header and per-cell pipeline
(render under the chosen format, then parse with the date flag). -/
def sasdata2dataframeCSV (dateFmts dtFmts : List String) (epoch : Int) (t : STable) :
    List String × List (List (Option PyVal)) :=
  let datecols := csvDateCols dateFmts dtFmts t.cols
  (t.cols.map ColSpec.name,
   t.rows.map (fun row =>
     (t.cols.zip row).map (fun cv =>
       (sasRenderCell epoch (schemaConv dateFmts dtFmts cv.1.formatName) cv.2).bind
         (pandasParseCell (cv.1.name ∈ datecols)))))

/-- Whether a raw cell value is numeric. -/
def PyVal.isNum : PyVal → Bool
  | PyVal.num _ => true
  | _ => false

/-- Well-formedness of a SAS table for the marshalling paths: column names
are unique (SAS guarantees this) and every cell in a date- or
datetime-formatted column is numeric. -/
def TableWF (dateFmts dtFmts : List String) (t : STable) : Prop :=
  (t.cols.map ColSpec.name).Nodup ∧
  ∀ row ∈ t.rows, ∀ cv ∈ t.cols.zip row,
    schemaConv dateFmts dtFmts cv.1.formatName ≠ Conv.identity →
    cv.2.isNum = true

/-- The result of `self._sb.file_info(remote, quiet=True)` as the transfer
methods branch on it: `None` (no such path), `{}` (a directory), or a
populated info dict (an existing file). -/
inductive FileInfo
  | missing
  | directory
  | file
deriving DecidableEq

/-- Outcome of an upload or download: the returned dict's `Success` flag
and `LOG` message, plus the path bytes were written to (`none` when the
call aborted without writing). Both methods return this structure on every
branch; no branch raises. -/
structure TransferOutcome where
  success : Bool
  log : String
  written : Option String
deriving DecidableEq

/-- `os.path.basename` (ntpath, drive letters aside): the suffix of the
path after the last `/` or the backslash separator. -/
def pyBasename (p : String) : String :=
  String.mk (((p.data.reverse).takeWhile (fun c => c ≠ '/' ∧ c ≠ bslash)).reverse)

/-- `remote.rpartition(hostsep)[2]` for the one-character separators SAS
host paths use: the suffix after the last occurrence of `sep`, or the
whole string when `sep` does not occur. -/
def rpartAfter (sep : Char) (s : String) : String :=
  String.mk (((s.data.reverse).takeWhile (fun c => c ≠ sep)).reverse)

/-- `os.path.join(a, b)` (ntpath, drive letters aside): `b` if absolute,
else `a ++ b` when `a` is empty or already ends in a separator, else
`a ++ sep ++ b`. -/
def osJoin (a b : String) : String :=
  match b.data with
  | c :: _ =>
    if c = '/' ∨ c = bslash then b
    else
      match a.data.reverse with
      | [] => b
      | l :: _ =>
        if l = '/' ∨ l = bslash then String.mk (a.data ++ b.data)
        else String.mk (a.data ++ [bslash] ++ b.data)
  | [] => a

/-- `SASSessionCOM.upload` (sasiocom.py:696-729). Branches in source
order: `remote` is a directory ⇒ write to `remote + hostsep +
basename(local)`; else an existing file with `overwrite=False` ⇒ return
the failure dict without writing; else write to `remote`. -/
def upload (remoteInfo : FileInfo) (overwrite : Bool)
    (localPath remote : String) (hostsep : Char) : TransferOutcome :=
  if remoteInfo = FileInfo.directory then
    { success := true,
      log := "File successfully written using FileService.",
      written := some (remote ++ String.mk [hostsep] ++ pyBasename localPath) }
  else if remoteInfo ≠ FileInfo.missing ∧ overwrite = false then
    { success := false,
      log := "File " ++ remote ++ " exists and overwrite was set to False. Upload was stopped.",
      written := none }
  else
    { success := true,
      log := "File successfully written using FileService.",
      written := some remote }

/-- `SASSessionCOM.download` (sasiocom.py:731-762). `remote` absent or a
directory ⇒ failure dict, nothing written; otherwise write the drained
bytes to `local` — joined with the remote basename when `local` is a
directory. The `overwrite` parameter is accepted but never read. -/
def download (remoteInfo : FileInfo) (localIsDir : Bool) (overwrite : Bool)
    (localPath remote : String) (hostsep : Char) : TransferOutcome :=
  if remoteInfo = FileInfo.missing then
    { success := false,
      log := "File " ++ remote ++ " does not exist.",
      written := none }
  else if remoteInfo = FileInfo.directory then
    { success := false,
      log := "File " ++ remote ++ " is a directory.",
      written := none }
  else
    { success := true,
      log := "File successfully read using FileService.",
      written := some (if localIsDir then osJoin localPath (rpartAfter hostsep remote)
                       else localPath) }

/-- Observable state of the COM session as `_startsas` touches it: the
live workspace's unique identifier (if any) and how many workspaces and
ADODB connections have been created so far. -/
structure ComSession where
  workspaceUid : Option String
  createdWorkspaces : Nat
  adodbOpens : Nat
deriving DecidableEq

/-- `SASSessionCOM._startsas` (sasiocom.py:164-207): when a workspace
handle is already live, return its `UniqueIdentifier` without touching
anything; otherwise create a workspace (identifier `fresh`), open the
ADODB connection against it, and return the new identifier. -/
def startsas (fresh : String) (s : ComSession) : ComSession × String :=
  match s.workspaceUid with
  | some uid => (s, uid)
  | none =>
    ({ workspaceUid := some fresh,
       createdWorkspaces := s.createdWorkspaces + 1,
       adodbOpens := s.adodbOpens + 1 }, fresh)

/-- Claim C1, counterexample: with `result_format = "html"` (the rich-output
mode) the unit handed to `LanguageService.Submit` is not the sentinel-first
concatenation the claim describes — `_asubmit` wraps the whole
sentinel-delimited unit inside the ODS preamble/postamble, so the submitted
text begins with the ODS preamble, not with the syntax-reset sentinel.
Shown at `output = "html5"`, `htmlfn = "f"`, `style = "s"`, empty macro
preamble, `code = "x"`. -/
theorem submitUnit_html_not_sentinel_first :
    submitUnit (str "html5") (str "f") (str "s") "html" [] (str "x") ≠
      claimedUnitC1 (str "html5") (str "f") (str "s") "html" [] (str "x") ∧
    RESET.isPrefixOf (submitUnit (str "html5") (str "f") (str "s") "html" [] (str "x")) = false := by
  decide

/-- Claim C1 (amended): the submitted unit is the wrap — applied to the
whole sentinel-delimited concatenation, not to the code alone — of
sentinel, macro preamble, code, sentinel: in the rich-output mode it is
ODS preamble ++ (sentinel ++ macro preamble ++ code ++ sentinel) ++ ODS
postamble, and only in the non-rich mode is it exactly sentinel ++ macro
preamble ++ code ++ sentinel, with the sentinel first. -/
theorem submitUnit_structure (output htmlfn style : Str) (results : String)
    (letDecls code : Str) :
    (pyLower results = "html" →
      submitUnit output htmlfn style results letDecls code =
        odsOpen output htmlfn style ++ (RESET ++ letDecls ++ code ++ RESET) ++
          odsClose output) ∧
    (pyLower results ≠ "html" →
      submitUnit output htmlfn style results letDecls code =
        RESET ++ letDecls ++ code ++ RESET ∧
      RESET <+: submitUnit output htmlfn style results letDecls code) := by
  constructor
  · intro h
    simp [submitUnit, asubmitFull, h]
  · intro h
    have he : submitUnit output htmlfn style results letDecls code =
        RESET ++ letDecls ++ code ++ RESET := by
      simp [submitUnit, asubmitFull, h]
    refine ⟨he, ?_⟩
    rw [he]
    exact ⟨letDecls ++ code ++ RESET, by simp⟩

/-- Witness for `submitUnit_structure` at concrete inputs, one instance per
mode. -/
theorem submitUnit_structure_witness :
    submitUnit (str "html5") (str "f") (str "s") "html" [] (str "x") =
      odsOpen (str "html5") (str "f") (str "s") ++
        (RESET ++ [] ++ str "x" ++ RESET) ++ odsClose (str "html5") ∧
    submitUnit (str "html5") (str "f") (str "s") "text" [] (str "x") =
      RESET ++ [] ++ str "x" ++ RESET := by
  exact ⟨(submitUnit_structure (str "html5") (str "f") (str "s") "html" [] (str "x")).1
      (by decide),
    ((submitUnit_structure (str "html5") (str "f") (str "s") "text" [] (str "x")).2
      (by decide)).1⟩

/-- Helper: on a channel whose yielded chunks are all non-empty, the drain
loop concatenates them all. -/
theorem drain_nonempty_join (chunks : List Str) (h : ∀ c ∈ chunks, c ≠ []) :
    drain chunks = chunks.flatten := by
  induction chunks with
  | nil => rfl
  | cons c rest ih =>
    have hc : c ≠ [] := h c (List.mem_cons_self c rest)
    simp only [drain, if_neg hc, List.flatten_cons]
    rw [ih (fun x hx => h x (List.mem_cons_of_mem c hx))]

/-- Helper: an explicit empty end-of-stream chunk after the non-empty ones
changes nothing. -/
theorem drain_terminated_join (chunks : List Str) (h : ∀ c ∈ chunks, c ≠ []) :
    drain (chunks ++ [[]]) = chunks.flatten := by
  induction chunks with
  | nil => rfl
  | cons c rest ih =>
    have hc : c ≠ [] := h c (List.mem_cons_self c rest)
    simp only [List.cons_append, drain, if_neg hc, List.flatten_cons]
    rw [show rest.append [([] : Str)] = rest ++ [[]] from rfl,
      ih (fun x hx => h x (List.mem_cons_of_mem c hx))]

/-- Claim C4: the drain loop returns the in-order concatenation of the
non-empty chunks the handle yields, whether or not the terminating empty
chunk is counted among them; in particular the channel yielding
`[b"ab", b"cd", b""]` drains to `b"abcd"` and the channel yielding `[b""]`
drains to `b""`. -/
theorem drain_concat (chunks : List Str) (h : ∀ c ∈ chunks, c ≠ []) :
    drain chunks = chunks.flatten ∧
    drain (chunks ++ [[]]) = chunks.flatten ∧
    drain [str "ab", str "cd", []] = str "abcd" ∧
    drain [[]] = [] := by
  exact ⟨drain_nonempty_join chunks h, drain_terminated_join chunks h,
    by decide, by decide⟩

/-- Witness for `drain_concat` at the concrete channel `[b"ab", b"cd"]`. -/
theorem drain_concat_witness :
    drain [str "ab", str "cd"] = List.flatten [str "ab", str "cd"] ∧
    drain ([str "ab", str "cd"] ++ [[]]) = List.flatten [str "ab", str "cd"] ∧
    drain [str "ab", str "cd", []] = str "abcd" ∧
    drain [[]] = [] := by
  exact drain_concat [str "ab", str "cd"] (by decide)

/-- Claim C2: every `submit` call ends with `_reset`, so the parser leaves
the call in the non-error state whatever the validity of the submitted
code; consequently, starting from a clean session, a submit of invalid
input followed by a submit of valid input has the second submission
accepted by the engine. -/
theorem submit_resets_engine_state (valid : Bool) (output htmlfn style : Str)
    (results : String) (letDecls code : Str) (s : LangService)
    (output₂ htmlfn₂ style₂ : Str) (results₂ : String) (letDecls₂ code₂ : Str) :
    (submitCOM valid output htmlfn style results letDecls code s).1.errorState = false ∧
    (s.errorState = false →
      (submitCOM true output₂ htmlfn₂ style₂ results₂ letDecls₂ code₂
        (submitCOM false output htmlfn style results letDecls code s).1).2 = true) := by
  constructor
  · simp [submitCOM, lsReset]
  · intro h
    simp [submitCOM, lsReset, lsSubmit]

/-- Witness for `submit_resets_engine_state`: a clean session, an invalid then a
valid submission, both in text mode. -/
theorem submit_resets_engine_state_witness :
    (submitCOM false (str "html5") (str "f") (str "s") "text" []
      (str "data _null_") ⟨false, []⟩).1.errorState = false ∧
    (submitCOM true (str "html5") (str "f") (str "s") "text" [] (str "run;")
      (submitCOM false (str "html5") (str "f") (str "s") "text" []
        (str "data _null_") ⟨false, []⟩).1).2 = true := by
  have h := submit_resets_engine_state false (str "html5") (str "f") (str "s") "text" []
    (str "data _null_") ⟨false, []⟩ (str "html5") (str "f") (str "s") "text" []
    (str "run;")
  exact ⟨h.1, h.2 (by decide)⟩

/-- Claim C3 (the code, run on any non-empty `prompt`, raises `NameError`
before anything is solicited or submitted): the loop body at
sasiocom.py:386 reads the name `val`, but the loop binds `value`, so the
first iteration fails name resolution. Evaluated at a one-entry prompt
whose collaborator would happily answer `"42"`. -/
theorem submit_prompt_name_error :
    submitWithPrompt (fun _ => some "42") [("x", false)] true
      (str "html5") (str "f") (str "s") "text" (str "proc print; run;")
      ⟨false, []⟩ = Except.error (PyErr.nameError "val") ∧
    evalLocal "val" = Except.error (PyErr.nameError "val") ∧
    evalLocal "value" = Except.ok "value" := by
  exact ⟨rfl, rfl, rfl⟩

/-- Claim C5: the conversion attached to a column depends only on its
format name — a name in the date set yields the epoch-plus-days map on
integers, a name not in the date set but in the datetime set yields the
epoch-plus-seconds map, and a name in neither set yields the identity on
every value. -/
theorem schemaConv_cases (dateFmts dtFmts : List String) (epoch : Int)
    (fmt : String) (n : Int) (v : PyVal) :
    (fmt ∈ dateFmts →
      applyConvCell epoch (schemaConv dateFmts dtFmts fmt) (PyVal.num n) =
        some (PyVal.dt (epoch + n * 86400))) ∧
    (fmt ∉ dateFmts → fmt ∈ dtFmts →
      applyConvCell epoch (schemaConv dateFmts dtFmts fmt) (PyVal.num n) =
        some (PyVal.dt (epoch + n))) ∧
    (fmt ∉ dateFmts → fmt ∉ dtFmts →
      schemaConv dateFmts dtFmts fmt = Conv.identity ∧
      applyConvCell epoch (schemaConv dateFmts dtFmts fmt) v = some v) := by
  refine ⟨fun h1 => ?_, fun h1 h2 => ?_, fun h1 h2 => ?_⟩ <;>
    simp [schemaConv, applyConvCell, h1, *]

/-- Witness for `schemaConv_cases`: the sets `["MMDDYY"]` and
`["DATETIME"]`, one format name per case, `epoch = 0`, `n = 3`. -/
theorem schemaConv_cases_witness :
    applyConvCell 0 (schemaConv ["MMDDYY"] ["DATETIME"] "MMDDYY") (PyVal.num 3) =
      some (PyVal.dt (0 + 3 * 86400)) ∧
    applyConvCell 0 (schemaConv ["MMDDYY"] ["DATETIME"] "DATETIME") (PyVal.num 3) =
      some (PyVal.dt (0 + 3)) ∧
    applyConvCell 0 (schemaConv ["MMDDYY"] ["DATETIME"] "BEST")
      (PyVal.text "a") = some (PyVal.text "a") := by
  refine ⟨(schemaConv_cases ["MMDDYY"] ["DATETIME"] 0 "MMDDYY" 3 (PyVal.num 3)).1
      (by decide),
    ((schemaConv_cases ["MMDDYY"] ["DATETIME"] 0 "DATETIME" 3 (PyVal.num 3)).2).1
      (by decide) (by decide),
    (((schemaConv_cases ["MMDDYY"] ["DATETIME"] 0 "BEST" 3 (PyVal.text "a")).2).2
      (by decide) (by decide)).2⟩

/-- Helper: after `setAttr`, the attribute reads back as the new value. -/
theorem getAttr_setAttr (k v : String) (fields : List (String × String)) :
    getAttr k (setAttr k v fields) = some v := by
  induction fields with
  | nil => simp [setAttr, getAttr]
  | cons kv rest ih =>
    by_cases h : kv.1 = k
    · simp [setAttr, h, getAttr]
    · simp [setAttr, h, getAttr, ih]

/-- Claim C6: with the lock flag set, `_try_override` (and hence the
constructor loop, for any overridable keyword) leaves the field at its
configuration-file value and appends the warning; with the lock flag
clear, the override takes effect and no warning is emitted. -/
theorem tryOverride_lock_policy (lock : Bool) (s : ConfigState)
    (attr value : String) :
    (lock = true →
      (tryOverride lock s attr value).fields = s.fields ∧
      (tryOverride lock s attr value).warnings =
        s.warnings ++ [overrideWarning attr]) ∧
    (lock = false →
      getAttr attr (tryOverride lock s attr value).fields = some value ∧
      (tryOverride lock s attr value).warnings = s.warnings) ∧
    (attr ∉ NO_OVERRIDE →
      applyOverrides lock s [(attr, value)] = tryOverride lock s attr value) := by
  refine ⟨fun h => ?_, fun h => ?_, fun h => ?_⟩
  · subst h; simp [tryOverride]
  · subst h; simp [tryOverride, getAttr_setAttr]
  · simp [applyOverrides, h]

/-- Witness for `tryOverride_lock_policy`: the `encoding` field, both lock
settings, starting from a one-field configuration. -/
theorem tryOverride_lock_policy_witness :
    (tryOverride true ⟨[("encoding", "utf-8")], []⟩ "encoding" "latin1").fields =
      [("encoding", "utf-8")] ∧
    (tryOverride true ⟨[("encoding", "utf-8")], []⟩ "encoding" "latin1").warnings =
      [] ++ [overrideWarning "encoding"] ∧
    getAttr "encoding"
      (tryOverride false ⟨[("encoding", "utf-8")], []⟩ "encoding" "latin1").fields =
      some "latin1" ∧
    applyOverrides true ⟨[("encoding", "utf-8")], []⟩ [("encoding", "latin1")] =
      tryOverride true ⟨[("encoding", "utf-8")], []⟩ "encoding" "latin1" := by
  refine ⟨((tryOverride_lock_policy true ⟨[("encoding", "utf-8")], []⟩
      "encoding" "latin1").1 rfl).1,
    ((tryOverride_lock_policy true ⟨[("encoding", "utf-8")], []⟩
      "encoding" "latin1").1 rfl).2,
    ((tryOverride_lock_policy false ⟨[("encoding", "utf-8")], []⟩
      "encoding" "latin1").2.1 rfl).1,
    (tryOverride_lock_policy true ⟨[("encoding", "utf-8")], []⟩
      "encoding" "latin1").2.2 (by decide)⟩

/-- Claim C9: when a workspace handle is already live, `_startsas` is a
no-op — it creates no workspace and no connection, leaves the session
state unchanged, and returns the existing unique identifier. -/
theorem startsas_idempotent (s : ComSession) (uid fresh : String)
    (h : s.workspaceUid = some uid) :
    startsas fresh s = (s, uid) := by
  simp [startsas, h]

/-- Witness for `startsas_idempotent`: a session whose workspace `"W1"` is
live. -/
theorem startsas_idempotent_witness :
    startsas "W2" ⟨some "W1", 1, 1⟩ = (⟨some "W1", 1, 1⟩, "W1") := by
  exact startsas_idempotent ⟨some "W1", 1, 1⟩ "W1" "W2" rfl

/-- Claim C10: `download` accepts `overwrite` but never consults it — its
result is independent of the flag — and when the remote path is an
existing file it unconditionally reports a write to the resolved local
path, even with `overwrite = false`. -/
theorem download_ignores_overwrite (remoteInfo : FileInfo) (localIsDir : Bool)
    (o₁ o₂ : Bool) (localPath remote : String) (hostsep : Char) :
    download remoteInfo localIsDir o₁ localPath remote hostsep =
      download remoteInfo localIsDir o₂ localPath remote hostsep ∧
    (remoteInfo = FileInfo.file →
      (download remoteInfo localIsDir false localPath remote hostsep).written =
        some (if localIsDir then osJoin localPath (rpartAfter hostsep remote)
              else localPath) ∧
      (download remoteInfo localIsDir false localPath remote hostsep).success =
        true) := by
  refine ⟨rfl, fun h => ?_⟩
  subst h
  simp [download]

/-- Witness for `download_ignores_overwrite`: an existing remote file,
`overwrite = false`, a non-directory local target. -/
theorem download_ignores_overwrite_witness :
    download FileInfo.file false false "C:out.txt" "sas.txt" '/' =
      download FileInfo.file false true "C:out.txt" "sas.txt" '/' ∧
    (download FileInfo.file false false "C:out.txt" "sas.txt" '/').written =
      some (if false then osJoin "C:out.txt" (rpartAfter '/' "sas.txt")
            else "C:out.txt") := by
  have h := download_ignores_overwrite FileInfo.file false false true
    "C:out.txt" "sas.txt" '/'
  exact ⟨h.1, (h.2 rfl).1⟩

/-- Claim C7: each file-policy violation yields a structured result —
`Success = False` with a message and no write, never an exception (the
embedded `upload`/`download` are total functions into `TransferOutcome`):
a missing remote path on download, a remote directory on download, and an
existing remote file with `overwrite = False` on upload; uploading to a
remote directory writes to `remote + hostsep + basename(local)`, and
downloading into a local directory writes to the join of the local
directory with the remote basename. -/
theorem transfer_policy (overwrite : Bool) (localPath remote : String)
    (hostsep : Char) (localIsDir : Bool) :
    (download FileInfo.missing localIsDir overwrite localPath remote hostsep).success =
      false ∧
    (download FileInfo.missing localIsDir overwrite localPath remote hostsep).written =
      none ∧
    (download FileInfo.directory localIsDir overwrite localPath remote hostsep).success =
      false ∧
    (download FileInfo.directory localIsDir overwrite localPath remote hostsep).written =
      none ∧
    (overwrite = false →
      (upload FileInfo.file overwrite localPath remote hostsep).success = false ∧
      (upload FileInfo.file overwrite localPath remote hostsep).written = none) ∧
    (upload FileInfo.directory overwrite localPath remote hostsep).written =
      some (remote ++ String.mk [hostsep] ++ pyBasename localPath) ∧
    (localIsDir = true →
      (download FileInfo.file localIsDir overwrite localPath remote hostsep).written =
        some (osJoin localPath (rpartAfter hostsep remote))) := by
  refine ⟨?_, ?_, ?_, ?_, fun h => ?_, ?_, fun h => ?_⟩ <;>
    simp [download, upload, *]

/-- Witness for `transfer_policy` at `overwrite = false`,
`localPath = "C:dir"`, `remote = "sas/dir"`, `hostsep = '/'`,
`localIsDir = true`. -/
theorem transfer_policy_witness :
    (download FileInfo.missing true false "C:dir" "sas/dir" '/').success = false ∧
    (download FileInfo.directory true false "C:dir" "sas/dir" '/').written = none ∧
    (upload FileInfo.file false "C:dir" "sas/dir" '/').success = false ∧
    (upload FileInfo.directory false "C:dir" "sas/dir" '/').written =
      some ("sas/dir" ++ String.mk ['/'] ++ pyBasename "C:dir") ∧
    (download FileInfo.file true false "C:dir" "sas/dir" '/').written =
      some (osJoin "C:dir" (rpartAfter '/' "sas/dir")) := by
  have h := transfer_policy false "C:dir" "sas/dir" '/' true
  exact ⟨h.1, h.2.2.2.1, (h.2.2.2.2.1 rfl).1, h.2.2.2.2.2.1, h.2.2.2.2.2.2 rfl⟩

/-- Helper: a numeric cell is some `PyVal.num`. -/
theorem PyVal.isNum_exists (v : PyVal) (h : v.isNum = true) :
    ∃ n, v = PyVal.num n := by
  cases v with
  | num n => exact ⟨n, rfl⟩
  | text s => simp [PyVal.isNum] at h
  | dt s => simp [PyVal.isNum] at h

/-- Helper: the `datecols` list collects exactly the columns whose schema
classification is not the identity. -/
theorem csvDateCols_eq (dateFmts dtFmts : List String) (cols : List ColSpec) :
    csvDateCols dateFmts dtFmts cols =
      cols.filterMap (fun c =>
        if schemaConv dateFmts dtFmts c.formatName ≠ Conv.identity then some c.name
        else none) := by
  unfold csvDateCols
  refine congrArg (fun f => List.filterMap f cols) (funext fun c => ?_)
  unfold schemaConv
  by_cases h1 : c.formatName ∈ dateFmts
  · simp [h1]
  · by_cases h2 : c.formatName ∈ dtFmts <;> simp [h1, h2]

/-- Helper: with unique column names, a column's name is in `datecols` iff
its own classification is non-identity. -/
theorem mem_csvDateCols_iff (dateFmts dtFmts : List String) (cols : List ColSpec)
    (hnd : (cols.map ColSpec.name).Nodup) (c : ColSpec) (hc : c ∈ cols) :
    c.name ∈ csvDateCols dateFmts dtFmts cols ↔
      schemaConv dateFmts dtFmts c.formatName ≠ Conv.identity := by
  rw [csvDateCols_eq, List.mem_filterMap]
  constructor
  · rintro ⟨a, ha, heq⟩
    by_cases hk : schemaConv dateFmts dtFmts a.formatName ≠ Conv.identity
    · rw [if_pos hk] at heq
      have : a = c := List.inj_on_of_nodup_map hnd ha hc (Option.some.inj heq)
      subst this
      exact hk
    · rw [if_neg hk] at heq
      exact absurd heq (by simp)
  · intro hk
    exact ⟨c, hc, by rw [if_pos hk]⟩

/-- Claim C8: on every well-formed table the cursor path and the CSV path
agree exactly — same header, same rows, same converted value in every
cell. -/
theorem cursor_csv_equiv (dateFmts dtFmts : List String) (epoch : Int)
    (t : STable) (h : TableWF dateFmts dtFmts t) :
    read_sasdata dateFmts dtFmts epoch t =
      sasdata2dataframeCSV dateFmts dtFmts epoch t := by
  obtain ⟨hnd, hnum⟩ := h
  unfold read_sasdata sasdata2dataframeCSV
  refine congrArg (Prod.mk (t.cols.map ColSpec.name)) ?_
  refine List.map_congr_left (fun row hrow => ?_)
  refine List.map_congr_left (fun cv hcv => ?_)
  have hc1 : cv.1 ∈ t.cols := (List.of_mem_zip (by rwa [← Prod.mk.eta (p := cv)] at hcv)).1
  have hiff := mem_csvDateCols_iff dateFmts dtFmts t.cols hnd cv.1 hc1
  cases hk : schemaConv dateFmts dtFmts cv.1.formatName with
  | identity =>
    have hmem : ¬ cv.1.name ∈ csvDateCols dateFmts dtFmts t.cols := by
      rw [hiff, hk]
      simp
    simp [applyConvCell, sasRenderCell, pandasParseCell, hmem]
  | dateDays =>
    obtain ⟨n, hn⟩ := PyVal.isNum_exists cv.2 (hnum row hrow cv hcv (by rw [hk]; simp))
    have hmem : cv.1.name ∈ csvDateCols dateFmts dtFmts t.cols := by
      rw [hiff, hk]
      simp
    simp [applyConvCell, sasRenderCell, pandasParseCell, hn, hmem]
  | datetimeSecs =>
    obtain ⟨n, hn⟩ := PyVal.isNum_exists cv.2 (hnum row hrow cv hcv (by rw [hk]; simp))
    have hmem : cv.1.name ∈ csvDateCols dateFmts dtFmts t.cols := by
      rw [hiff, hk]
      simp
    simp [applyConvCell, sasRenderCell, pandasParseCell, hn, hmem]

/-- Witness for `cursor_csv_equiv`: a two-column table (a date column and
a plain numeric column) with two rows, one of them mixing a character
cell into the plain column. -/
theorem cursor_csv_equiv_witness :
    read_sasdata ["MMDDYY"] ["DATETIME"] 0
      ⟨[⟨"D", "MMDDYY", 8, 0⟩, ⟨"N", "BEST", 12, 0⟩],
       [[PyVal.num 3, PyVal.text "a"], [PyVal.num 4, PyVal.num 7]]⟩ =
    sasdata2dataframeCSV ["MMDDYY"] ["DATETIME"] 0
      ⟨[⟨"D", "MMDDYY", 8, 0⟩, ⟨"N", "BEST", 12, 0⟩],
       [[PyVal.num 3, PyVal.text "a"], [PyVal.num 4, PyVal.num 7]]⟩ := by
  exact cursor_csv_equiv ["MMDDYY"] ["DATETIME"] 0
    ⟨[⟨"D", "MMDDYY", 8, 0⟩, ⟨"N", "BEST", 12, 0⟩],
     [[PyVal.num 3, PyVal.text "a"], [PyVal.num 4, PyVal.num 7]]⟩
    ⟨by decide, by decide⟩
